import Mathlib

/-!
Verification development for the EdDSA (Ed25519) signing/verification and
PEM/ASN.1 key-parsing module (eddsa.go) of a Go JWT library.

Bytes are modelled as `Nat` (values kept below 256 by construction of the
inputs); byte strings are `List Nat`.  The Go standard-library collaborators
(encoding/pem, encoding/asn1, crypto/ed25519) are modelled executably from
their documented behaviour; the cryptographic core of Ed25519 (signing,
raw verification, scalar-base multiplication) is kept abstract behind the
`Ed25519Prim` structure, since the repository treats it as a black-box
primitive.  Go panics are surfaced as explicit `panicked` results.
-/

namespace Jwt

/-- Bytes of an ASCII string, used to build concrete byte-level inputs. -/
def strBytes (s : String) : List Nat := s.toList.map Char.toNat

/-! ## Base64 (standard alphabet, as used by encoding/pem) -/

/-- Value of one base64 alphabet character (A-Z, a-z, 0-9, +, /). -/
def b64Val (c : Nat) : Option Nat :=
  if 65 ≤ c ∧ c ≤ 90 then some (c - 65)
  else if 97 ≤ c ∧ c ≤ 122 then some (c - 97 + 26)
  else if 48 ≤ c ∧ c ≤ 57 then some (c - 48 + 52)
  else if c = 43 then some 62
  else if c = 47 then some 63
  else none

/-- Decode a base64 character stream, four characters at a time; padding
with 61 (the character =) is only accepted in the final quad.  Models
base64.StdEncoding decoding as used by pem.Decode. -/
def b64DecodeQuads : List Nat → Option (List Nat)
  | [] => some []
  | c0 :: c1 :: c2 :: c3 :: rest =>
    match b64Val c0, b64Val c1 with
    | some v0, some v1 =>
      if c2 = 61 then
        if c3 = 61 ∧ rest = [] then some [v0 * 4 + v1 / 16] else none
      else
        match b64Val c2 with
        | some v2 =>
          if c3 = 61 then
            if rest = [] then some [v0 * 4 + v1 / 16, v1 % 16 * 16 + v2 / 4] else none
          else
            match b64Val c3 with
            | some v3 =>
              match b64DecodeQuads rest with
              | some bs =>
                some ((v0 * 4 + v1 / 16) :: (v1 % 16 * 16 + v2 / 4) :: (v2 % 4 * 64 + v3) :: bs)
              | none => none
            | none => none
        | none => none
    | _, _ => none
  | _ => none

/-! ## PEM armor (model of encoding/pem pem.Decode, single-block inputs) -/

/-- Drop trailing carriage returns, spaces and tabs from one line. -/
def trimEnd (l : List Nat) : List Nat :=
  (l.reverse.dropWhile (fun b => b == 13 || b == 32 || b == 9)).reverse

/-- Split a byte stream into lines at byte 10 (newline). -/
def splitLinesAux (cur : List Nat) : List Nat → List (List Nat)
  | [] => [cur.reverse]
  | b :: rest =>
    if b = 10 then cur.reverse :: splitLinesAux [] rest
    else splitLinesAux (b :: cur) rest

/-- Lines of a byte stream, each with trailing whitespace removed. -/
def splitLines (bs : List Nat) : List (List Nat) :=
  (splitLinesAux [] bs).map trimEnd

/-- Bytes of the opening armor marker. -/
def beginMark : List Nat := strBytes "-----BEGIN "

/-- Bytes of the closing armor marker. -/
def endMark : List Nat := strBytes "-----END "

/-- Bytes of the five-dash armor delimiter. -/
def dashMark : List Nat := strBytes "-----"

/-- Recognise an armor opening line and extract the block type name. -/
def parseBeginLine (l : List Nat) : Option (List Nat) :=
  if beginMark.isPrefixOf l then
    let rest := l.drop beginMark.length
    if dashMark.isSuffixOf rest ∧ dashMark.length ≤ rest.length then
      some (rest.take (rest.length - dashMark.length))
    else none
  else none

/-- Collect base64 body lines until the matching closing line, then decode.
Models the body handling of pem.Decode for a single block (no headers,
no retry after a failed block). -/
def pemBody (ty : List Nat) : List Nat → List (List Nat) → Option (List Nat)
  | _, [] => none
  | acc, l :: rest =>
    if l = endMark ++ ty ++ dashMark then b64DecodeQuads acc
    else pemBody ty (acc ++ l) rest

/-- Scan lines for the first armor opening line and decode its block. -/
def pemDecodeLines : List (List Nat) → Option (List Nat)
  | [] => none
  | l :: rest =>
    match parseBeginLine l with
    | some ty => pemBody ty [] rest
    | none => pemDecodeLines rest

/-- Model of Go pem.Decode restricted to what eddsa.go uses: the decoded
bytes of the first well-formed PEM block, or none when no block decodes. -/
def pemDecode (bs : List Nat) : Option (List Nat) :=
  pemDecodeLines (splitLines bs)

/-! ## DER / ASN.1 (model of encoding/asn1 for the two fixed struct shapes) -/

/-- Structural and syntax errors of the ASN.1 unmarshaller. -/
inductive ASN1Error
  | truncated
  | tagMismatch
  | indefiniteLen
  | lenTooLarge
  | nonMinimalLen
  | emptyInt
  | nonMinimalInt
  | intTooLarge
  | invalidOID
  | emptyBitString
  | invalidPadBits
deriving DecidableEq, Repr

/-- Decidable equality of Except values, used to evaluate the unmarshal
functions on concrete inputs. -/
instance {ε α : Type} [DecidableEq ε] [DecidableEq α] : DecidableEq (Except ε α) :=
  fun a b =>
    match a, b with
    | .error e1, .error e2 =>
      if h : e1 = e2 then .isTrue (congrArg Except.error h)
      else .isFalse (fun hc => h (by cases hc; rfl))
    | .ok v1, .ok v2 =>
      if h : v1 = v2 then .isTrue (congrArg Except.ok h)
      else .isFalse (fun hc => h (by cases hc; rfl))
    | .error _, .ok _ => .isFalse (fun hc => Except.noConfusion hc)
    | .ok _, .error _ => .isFalse (fun hc => Except.noConfusion hc)

/-- Read one base-128 (high-bit continuation) encoded natural number. -/
def parseBase128Aux (acc : Nat) : List Nat → Option (Nat × List Nat)
  | [] => none
  | b :: rest =>
    let acc2 := acc * 128 + b % 128
    if b < 128 then some (acc2, rest) else parseBase128Aux acc2 rest

/-- Read a fixed number of big-endian length bytes. -/
def readLenLong : Nat → Nat → List Nat → Option (Nat × List Nat)
  | 0, acc, bs => some (acc, bs)
  | _ + 1, _, [] => none
  | n + 1, acc, b :: bs => readLenLong n (acc * 256 + b) bs

/-- Read a DER length (short or minimal long form). -/
def readLen : List Nat → Except ASN1Error (Nat × List Nat)
  | [] => .error .truncated
  | b :: rest =>
    if b < 128 then .ok (b, rest)
    else if b = 128 then .error .indefiniteLen
    else
      let n := b - 128
      if 4 < n then .error .lenTooLarge
      else
        match readLenLong n 0 rest with
        | none => .error .truncated
        | some (v, rest2) =>
          if v < 128 then .error .nonMinimalLen
          else if rest.headD 1 = 0 then .error .nonMinimalLen
          else .ok (v, rest2)

/-- Read a DER identifier octet (with base-128 high tag numbers) and the
following length: (class, constructed, tag, length, rest). -/
def readTL (bs : List Nat) : Except ASN1Error (Nat × Bool × Nat × Nat × List Nat) :=
  match bs with
  | [] => .error .truncated
  | b :: rest =>
    let cls := b / 64
    let constructed := decide (b / 32 % 2 = 1)
    let tn := b % 32
    if tn = 31 then
      match parseBase128Aux 0 rest with
      | none => .error .truncated
      | some (t, rest2) =>
        match readLen rest2 with
        | .error e => .error e
        | .ok (len, rest3) => .ok (cls, constructed, t, len, rest3)
    else
      match readLen rest with
      | .error e => .error e
      | .ok (len, rest3) => .ok (cls, constructed, tn, len, rest3)

/-- Read one DER element with the expected class/constructed/tag, returning
its content bytes and the remaining bytes after the element. -/
def expectElem (cls : Nat) (constructed : Bool) (tag : Nat) (bs : List Nat) :
    Except ASN1Error (List Nat × List Nat) :=
  match readTL bs with
  | .error e => .error e
  | .ok (c, k, t, len, rest) =>
    if c = cls ∧ k = constructed ∧ t = tag then
      if len ≤ rest.length then .ok (rest.take len, rest.drop len)
      else .error .truncated
    else .error .tagMismatch

/-- Signed value of a DER INTEGER content (big-endian two's complement). -/
def intValOf (c : List Nat) : Int :=
  let u : Nat := c.foldl (fun acc b => acc * 256 + b) 0
  if 128 ≤ c.headD 0 then (u : Int) - ((2 ^ (8 * c.length) : Nat) : Int) else (u : Int)

/-- Well-formedness of a DER INTEGER content (nonempty, minimal). -/
def checkInt : List Nat → Except ASN1Error Unit
  | [] => .error .emptyInt
  | [_] => .ok ()
  | b0 :: b1 :: _ =>
    if (b0 = 0 ∧ b1 < 128) ∨ (b0 = 255 ∧ 128 ≤ b1) then .error .nonMinimalInt
    else .ok ()

/-- Parse an INTEGER field into a (64-bit-bounded) signed integer. -/
def parseIntField (bs : List Nat) : Except ASN1Error (Int × List Nat) :=
  match expectElem 0 false 2 bs with
  | .error e => .error e
  | .ok (c, rest) =>
    match checkInt c with
    | .error e => .error e
    | .ok _ =>
      if 8 < c.length then .error .intTooLarge
      else .ok (intValOf c, rest)

/-- Decode the remaining base-128 arcs of an OBJECT IDENTIFIER content. -/
def oidArcsAux : Nat → List Nat → Option (List Nat)
  | _, [] => some []
  | 0, _ :: _ => none
  | fuel + 1, b :: rest =>
    match parseBase128Aux 0 (b :: rest) with
    | none => none
    | some (v, rest2) =>
      match oidArcsAux fuel rest2 with
      | none => none
      | some vs => some (v :: vs)

/-- Parse an OBJECT IDENTIFIER content into its list of arcs. -/
def parseOIDContent (c : List Nat) : Except ASN1Error (List Nat) :=
  match c with
  | [] => .error .invalidOID
  | b :: rest =>
    match parseBase128Aux 0 (b :: rest) with
    | none => .error .invalidOID
    | some (v0, rest2) =>
      match oidArcsAux rest2.length rest2 with
      | none => .error .invalidOID
      | some vs =>
        if v0 < 80 then .ok (v0 / 40 :: v0 % 40 :: vs)
        else .ok (2 :: (v0 - 80) :: vs)

/-- Parse a BIT STRING content into (padding bit count, content bytes). -/
def parseBitStringContent (c : List Nat) : Except ASN1Error (Nat × List Nat) :=
  match c with
  | [] => .error .emptyBitString
  | pad :: data =>
    if 7 < pad then .error .invalidPadBits
    else
      match data.getLast? with
      | none => if 0 < pad then .error .invalidPadBits else .ok (pad, [])
      | some lb => if lb % 2 ^ pad ≠ 0 then .error .invalidPadBits else .ok (pad, data)

/-- Model of asn1.Unmarshal for the anonymous struct of ParsePrivateKeyEdDSA:
SEQUENCE of an INTEGER version, a nested SEQUENCE holding an OBJECT
IDENTIFIER, and an OCTET STRING with the raw private-key bytes.  Trailing
bytes inside a SEQUENCE and after the top-level element are tolerated, as
in encoding/asn1. -/
def asn1UnmarshalPriv (bs : List Nat) : Except ASN1Error (Int × List Nat × List Nat) :=
  match expectElem 0 true 16 bs with
  | .error e => .error e
  | .ok (outer, _) =>
    match parseIntField outer with
    | .error e => .error e
    | .ok (ver, r1) =>
      match expectElem 0 true 16 r1 with
      | .error e => .error e
      | .ok (aid, r2) =>
        match expectElem 0 false 6 aid with
        | .error e => .error e
        | .ok (oidC, _) =>
          match parseOIDContent oidC with
          | .error e => .error e
          | .ok arcs =>
            match expectElem 0 false 4 r2 with
            | .error e => .error e
            | .ok (raw, _) => .ok (ver, arcs, raw)

/-- Model of asn1.Unmarshal for the anonymous struct of ParsePublicKeyEdDSA:
SEQUENCE of a nested SEQUENCE holding an OBJECT IDENTIFIER, and a BIT
STRING carrying the raw public-key bytes. -/
def asn1UnmarshalPub (bs : List Nat) : Except ASN1Error (List Nat × Nat × List Nat) :=
  match expectElem 0 true 16 bs with
  | .error e => .error e
  | .ok (outer, _) =>
    match expectElem 0 true 16 outer with
    | .error e => .error e
    | .ok (aid, r1) =>
      match expectElem 0 false 6 aid with
      | .error e => .error e
      | .ok (oidC, _) =>
        match parseOIDContent oidC with
        | .error e => .error e
        | .ok arcs =>
          match expectElem 0 false 3 r1 with
          | .error e => .error e
          | .ok (bsC, _) =>
            match parseBitStringContent bsC with
            | .error e => .error e
            | .ok (pad, data) => .ok (arcs, pad, data)

/-! ## The Ed25519 primitive (crypto/ed25519), abstract core -/

/-- Abstract cryptographic core of crypto/ed25519: deterministic signing of
a message under a 64-byte private key, raw boolean verification under a
32-byte public key, and derivation of the 32-byte public point from a
32-byte seed.  The length and completeness facts the repository relies on
are stated separately as `PubLen32`, `SigLen64` and pointwise completeness
hypotheses. -/
structure Ed25519Prim where
  sign : List Nat → List Nat → List Nat
  verifyRaw : List Nat → List Nat → List Nat → Bool
  scalarBaseMultPub : List Nat → List Nat

/-- Model of ed25519.NewKeyFromSeed: panics (none) unless the seed is
exactly 32 bytes, else returns the 64-byte key seed ++ publicPoint. -/
def newKeyFromSeed (P : Ed25519Prim) (seed : List Nat) : Option (List Nat) :=
  if seed.length = 32 then some (seed ++ P.scalarBaseMultPub seed) else none

/-- Model of ed25519.PrivateKey.Public(): slicing priv[32:] panics (none)
when the key is shorter than 32 bytes; otherwise the suffix is copied into
a zeroed 32-byte buffer, so the result is always exactly 32 bytes. -/
def goPublicOf (priv : List Nat) : Option (List Nat) :=
  if priv.length < 32 then none
  else some ((priv.drop 32 ++ List.replicate 32 0).take 32)

/-- Derivation of the public point from a 32-byte seed returns 32 bytes. -/
def PubLen32 (P : Ed25519Prim) : Prop :=
  ∀ s : List Nat, (P.scalarBaseMultPub s).length = 32

/-- Signatures produced by the primitive are 64 bytes. -/
def SigLen64 (P : Ed25519Prim) : Prop :=
  ∀ (k m : List Nat), (P.sign k m).length = 64

/-! ## Keys, sentinel errors and the algorithm adapter (eddsa.go) -/

/-- Dynamic type of a key value handed to Sign/Verify: the Go code receives
interface values and type-asserts against ed25519.PrivateKey and
ed25519.PublicKey; any other dynamic type is `otherType`. -/
inductive Key
  | ed25519Priv (bytes : List Nat)
  | ed25519Pub (bytes : List Nat)
  | otherType
deriving DecidableEq

/-- Modelled from the spec: the sentinel errors ErrInvalidKey and
ErrTokenSignature are defined elsewhere in the repository (not under src/);
the spec describes them as two distinguished values compared by identity,
so they are modelled as the two constructors of this type. -/
inductive SigErr
  | invalidKey
  | tokenSignature
deriving DecidableEq, Repr

/-- Outcome of Verify: nil error, a sentinel error, or a Go panic. -/
inductive VerifyOut
  | ok
  | err (e : SigErr)
  | panicked
deriving DecidableEq, Repr

/-- Translation of algEdDSA.Sign (eddsa.go lines 18-29): type-assert the
key as ed25519.PrivateKey, require length 64, then delegate to
ed25519.Sign.  The primitive's own panic on a bad length is unreachable
because the length check precedes the call. -/
def algEdDSA.Sign (P : Ed25519Prim) (key : Key) (headerAndPayload : List Nat) :
    Except SigErr (List Nat) :=
  match key with
  | .ed25519Priv privateKey =>
    if privateKey.length ≠ 64 then .error .invalidKey
    else .ok (P.sign privateKey headerAndPayload)
  | _ => .error .invalidKey

/-- Translation of algEdDSA.Verify (eddsa.go lines 31-50): type-assert the
key as ed25519.PublicKey, falling back to deriving the public key from an
ed25519.PrivateKey via Public() (which panics for keys shorter than 32
bytes); reject any other dynamic type; then require the public key length
to be 32 and delegate to ed25519.Verify, mapping false to the signature
sentinel. -/
def algEdDSA.Verify (P : Ed25519Prim) (key : Key) (headerAndPayload signature : List Nat) :
    VerifyOut :=
  match key with
  | .ed25519Pub publicKey =>
    if publicKey.length ≠ 32 then .err .invalidKey
    else if P.verifyRaw publicKey headerAndPayload signature then .ok
    else .err .tokenSignature
  | .ed25519Priv privateKey =>
    match goPublicOf privateKey with
    | none => .panicked
    | some publicKey =>
      if publicKey.length ≠ 32 then .err .invalidKey
      else if P.verifyRaw publicKey headerAndPayload signature then .ok
      else .err .tokenSignature
  | .otherType => .err .invalidKey

/-! ## Key parsers (eddsa.go lines 108-155) -/

/-- Errors of the parse functions: the context-naming PEM message built
with fmt.Errorf, or the asn1.Unmarshal error propagated unmodified. -/
inductive ParseErr
  | pemMsg (msg : String)
  | asn1 (e : ASN1Error)
deriving DecidableEq

/-- Outcome of a parser: a key, an error, or a Go panic. -/
inductive ParseOut (α : Type)
  | ok (val : α)
  | err (e : ParseErr)
  | panicked
deriving DecidableEq

/-- Error message of ParsePrivateKeyEdDSA when pem.Decode yields no block. -/
def privPemErrorMsg : String := "private key: malformed or missing PEM format (EdDSA)"

/-- Error message of ParsePublicKeyEdDSA when pem.Decode yields no block. -/
def pubPemErrorMsg : String := "public key: malformed or missing PEM format (EdDSA)"

/-- Translation of ParsePrivateKeyEdDSA (eddsa.go lines 111-131): decode
PEM, unmarshal the three-field DER structure, then evaluate
ed25519.NewKeyFromSeed(raw[2:]).  The slice raw[2:] panics when the raw
field is shorter than 2 bytes, and NewKeyFromSeed panics when the
remainder is not exactly 32 bytes; both panics are surfaced as
`panicked`. -/
def ParsePrivateKeyEdDSA (P : Ed25519Prim) (key : List Nat) : ParseOut (List Nat) :=
  match pemDecode key with
  | none => .err (.pemMsg privPemErrorMsg)
  | some block =>
    match asn1UnmarshalPriv block with
    | .error e => .err (.asn1 e)
    | .ok (_, _, raw) =>
      if raw.length < 2 then .panicked
      else
        match newKeyFromSeed P (raw.drop 2) with
        | none => .panicked
        | some privateKey => .ok privateKey

/-- Translation of ParsePublicKeyEdDSA (eddsa.go lines 136-155): decode
PEM, unmarshal the two-field DER structure, and return the BIT STRING
content bytes directly as the public key, with no length validation. -/
def ParsePublicKeyEdDSA (key : List Nat) : ParseOut (List Nat) :=
  match pemDecode key with
  | none => .err (.pemMsg pubPemErrorMsg)
  | some block =>
    match asn1UnmarshalPub block with
    | .error e => .err (.asn1 e)
    | .ok (_, _, data) => .ok data

/-! ## Concrete primitive instance and concrete inputs -/

/-- Concrete executable stand-in for the abstract Ed25519 core, used to
instantiate hypotheses at concrete inputs: it satisfies `PubLen32`,
`SigLen64` and the pointwise sign/verify completeness equations. -/
def mockPrim : Ed25519Prim where
  sign priv msg := ((priv.drop 32) ++ msg ++ List.replicate 64 0).take 64
  verifyRaw pub msg sig := sig == ((pub ++ msg ++ List.replicate 64 0).take 64)
  scalarBaseMultPub seed := ((seed ++ List.replicate 32 0).take 32)

/-- Wrap a base64 body in PEM armor lines with the given label. -/
def pemWrap (label body : String) : List Nat :=
  strBytes ("-----BEGIN " ++ label ++ "-----" ++ "\n" ++ body ++ "\n" ++
    "-----END " ++ label ++ "-----" ++ "\n")

/-- PEM input whose DER payload is SEQUENCE \x7b INTEGER 0, SEQUENCE
\x7b OID 1.3.101.112 \x7d, OCTET STRING of length 0 \x7d: well-formed
ASN.1 whose private-key field is empty, so raw[2:] panics. -/
def inputEmptyOctet : List Nat := pemWrap "PRIVATE KEY" "MAwCAQAwBQYDK2VwBAA="

/-- PEM input like `inputEmptyOctet` but with a 1-byte OCTET STRING
(content 0xAA): well-formed ASN.1, raw[2:] panics. -/
def inputOneByteOctet : List Nat := pemWrap "PRIVATE KEY" "MA0CAQAwBQYDK2VwBAGq"

/-- PEM input holding the standard PKCS#8 Ed25519 envelope around the
34-byte OCTET STRING 0x04 0x20 ‖ seed for the seed 0x00..0x1F. -/
def inputGoodSeed : List Nat :=
  pemWrap "PRIVATE KEY" "MC4CAQAwBQYDK2VwBCIEIAABAgMEBQYHCAkKCwwNDg8QERITFBUWFxgZGhscHR4f"

/-- PEM input whose DER payload is a public-key envelope with a 5-byte
BIT STRING content 0xAA 0xBB 0xCC 0xDD 0xEE. -/
def inputPub5 : List Nat := pemWrap "PUBLIC KEY" "MA8wBQYDK2VwAwYAqrvM3e4="

/-- PEM input whose DER payload is a public-key envelope with a 3-byte
BIT STRING content 0x11 0x22 0x33. -/
def inputPub3 : List Nat := pemWrap "PUBLIC KEY" "MA0wBQYDK2VwAwQAESIz"

/-- PEM block whose payload [0, 0, 0] is not a DER SEQUENCE. -/
def inputBadDER : List Nat := pemWrap "PRIVATE KEY" "AAAA"

/-- Raw private-key field of `inputGoodSeed`: inner OCTET STRING header
0x04 0x20 followed by the 32 seed bytes 0x00..0x1F. -/
def goodRaw : List Nat := 4 :: 32 :: List.range 32

/-- DER payload of `inputGoodSeed`. -/
def goodSeedDER : List Nat := [48, 46, 2, 1, 0, 48, 5, 6, 3, 43, 101, 112, 4, 34] ++ goodRaw

/-- DER payload of `inputEmptyOctet`. -/
def emptyOctetDER : List Nat := [48, 12, 2, 1, 0, 48, 5, 6, 3, 43, 101, 112, 4, 0]

/-! ## Helper lemmas -/

/-- The mock primitive derives 32-byte public points from any seed. -/
theorem mockPrim_pubLen32 : PubLen32 mockPrim := by
  intro s
  simp [mockPrim, PubLen32]

/-- The mock primitive produces 64-byte signatures on any input. -/
theorem mockPrim_sigLen64 : SigLen64 mockPrim := by
  intro k m
  simp [mockPrim, SigLen64]
  omega

/-- On a 64-byte private key, Public() returns exactly the last 32 bytes. -/
theorem goPublicOf_eq_of_len64 (priv : List Nat) (hlen : priv.length = 64) :
    goPublicOf priv = some (priv.drop 32) := by
  have h1 : ¬ priv.length < 32 := by omega
  have h2 : (priv.drop 32).length = 32 := by simp [hlen]
  unfold goPublicOf
  rw [if_neg h1]
  congr 1
  calc (priv.drop 32 ++ List.replicate 32 0).take 32
      = (priv.drop 32 ++ List.replicate 32 0).take (priv.drop 32).length := by rw [h2]
    _ = priv.drop 32 := List.take_left _ _

end Jwt

namespace Jwt

/-! ## Claim theorems -/

/-- C1: for every valid 64-byte Ed25519 private key and every message, the
signature produced by algEdDSA.Sign is accepted by algEdDSA.Verify under
the corresponding public key (the last 32 bytes of the private key), given
the completeness of the underlying Ed25519 primitive at those inputs. -/
theorem sign_verify_roundtrip (P : Ed25519Prim) (priv m : List Nat)
    (hlen : priv.length = 64)
    (hcomp : P.verifyRaw (priv.drop 32) m (P.sign priv m) = true) :
    algEdDSA.Sign P (.ed25519Priv priv) m = .ok (P.sign priv m) ∧
    algEdDSA.Verify P (.ed25519Pub (priv.drop 32)) m (P.sign priv m) = .ok := by
  have h2 : (priv.drop 32).length = 32 := by simp [hlen]
  constructor
  · simp [algEdDSA.Sign, hlen]
  · simp [algEdDSA.Verify, h2, hcomp]

/-- Witness for C1 at a concrete 64-byte key and concrete message. -/
theorem sign_verify_roundtrip_witness :
    algEdDSA.Sign mockPrim (.ed25519Priv (List.replicate 64 3)) [5, 6] =
      .ok (mockPrim.sign (List.replicate 64 3) [5, 6]) ∧
    algEdDSA.Verify mockPrim (.ed25519Pub ((List.replicate 64 3).drop 32)) [5, 6]
      (mockPrim.sign (List.replicate 64 3) [5, 6]) = .ok :=
  sign_verify_roundtrip mockPrim (List.replicate 64 3) [5, 6] (by decide) (by decide)

/-- C2, counterexample: an ed25519.PrivateKey of invalid length 33 is not
rejected with the invalid-key sentinel; Verify derives a 32-byte public key
from it via Public() and reports a signature mismatch instead, so the
invalid-key sentinel is not returned exactly when the key length is
invalid. -/
theorem verify_invalid_length_counterexample :
    (List.replicate 33 7).length ≠ 64 ∧ (List.replicate 33 7).length ≠ 32 ∧
    algEdDSA.Verify mockPrim (.ed25519Priv (List.replicate 33 7)) [1] [2] =
      .err .tokenSignature ∧
    SigErr.tokenSignature ≠ SigErr.invalidKey := by decide

/-- C2, amended: Verify returns the invalid-key sentinel exactly for a
foreign dynamic type or a supplied public key of length other than 32; a
private key shorter than 32 bytes makes Public() panic, and any longer
private key is normalised by Public() to a 32-byte derived key and judged
by raw verification alone (mismatch sentinel or success).  The two
sentinels are distinct values. -/
theorem verify_characterization (P : Ed25519Prim) (m s : List Nat) :
    (algEdDSA.Verify P .otherType m s = .err .invalidKey) ∧
    (∀ b : List Nat, b.length ≠ 32 →
      algEdDSA.Verify P (.ed25519Pub b) m s = .err .invalidKey) ∧
    (∀ b : List Nat, b.length = 32 →
      algEdDSA.Verify P (.ed25519Pub b) m s =
        (if P.verifyRaw b m s then .ok else .err .tokenSignature)) ∧
    (∀ b : List Nat, b.length < 32 →
      algEdDSA.Verify P (.ed25519Priv b) m s = .panicked) ∧
    (∀ b : List Nat, 32 ≤ b.length →
      algEdDSA.Verify P (.ed25519Priv b) m s =
        (if P.verifyRaw ((b.drop 32 ++ List.replicate 32 0).take 32) m s then .ok
         else .err .tokenSignature)) ∧
    (SigErr.invalidKey ≠ SigErr.tokenSignature) := by
  refine ⟨rfl, ?_, ?_, ?_, ?_, by decide⟩
  · intro b hb
    simp [algEdDSA.Verify, hb]
  · intro b hb
    simp [algEdDSA.Verify, hb]
  · intro b hb
    simp [algEdDSA.Verify, goPublicOf, hb]
  · intro b hb
    have hlt : ¬ b.length < 32 := Nat.not_lt.mpr hb
    have hlen : ((b.drop 32 ++ List.replicate 32 0).take 32).length = 32 := by
      simp
    simp [algEdDSA.Verify, goPublicOf, hlt, hlen]

/-- Witness for the amended C2 at concrete keys of each shape. -/
theorem verify_characterization_witness :
    algEdDSA.Verify mockPrim .otherType [1] [2] = .err .invalidKey ∧
    algEdDSA.Verify mockPrim (.ed25519Pub (List.replicate 31 5)) [1] [2] = .err .invalidKey ∧
    algEdDSA.Verify mockPrim (.ed25519Priv (List.replicate 10 5)) [1] [2] = .panicked :=
  ⟨(verify_characterization mockPrim [1] [2]).1,
   (verify_characterization mockPrim [1] [2]).2.1 (List.replicate 31 5) (by decide),
   (verify_characterization mockPrim [1] [2]).2.2.2.1 (List.replicate 10 5) (by decide)⟩

/-- C3: Sign returns the invalid-key sentinel exactly when the dynamic type
is not ed25519.PrivateKey or the length is not 64; otherwise it returns
the 64-byte signature of the primitive and no error. -/
theorem sign_characterization (P : Ed25519Prim) (m : List Nat) (hsig : SigLen64 P) :
    (∀ b : List Nat, b.length = 64 →
      algEdDSA.Sign P (.ed25519Priv b) m = .ok (P.sign b m) ∧ (P.sign b m).length = 64) ∧
    (∀ b : List Nat, b.length ≠ 64 →
      algEdDSA.Sign P (.ed25519Priv b) m = .error .invalidKey) ∧
    (∀ b : List Nat, algEdDSA.Sign P (.ed25519Pub b) m = .error .invalidKey) ∧
    (algEdDSA.Sign P .otherType m = .error .invalidKey) := by
  refine ⟨?_, ?_, ?_, rfl⟩
  · intro b hb
    exact ⟨by simp [algEdDSA.Sign, hb], hsig b m⟩
  · intro b hb
    simp [algEdDSA.Sign, hb]
  · intro b
    rfl

/-- Witness for C3 at concrete keys of each shape. -/
theorem sign_characterization_witness :
    algEdDSA.Sign mockPrim (.ed25519Priv (List.replicate 64 2)) [7] =
      .ok (mockPrim.sign (List.replicate 64 2) [7]) ∧
    algEdDSA.Sign mockPrim (.ed25519Priv (List.replicate 31 2)) [7] = .error .invalidKey ∧
    algEdDSA.Sign mockPrim .otherType [7] = .error .invalidKey :=
  ⟨((sign_characterization mockPrim [7] mockPrim_sigLen64).1 (List.replicate 64 2)
      (by decide)).1,
   (sign_characterization mockPrim [7] mockPrim_sigLen64).2.1 (List.replicate 31 2)
      (by decide),
   (sign_characterization mockPrim [7] mockPrim_sigLen64).2.2.2⟩

/-- C7: on a 64-byte ed25519.PrivateKey, Verify derives the public key
internally (the last 32 bytes) and returns exactly the verdict of Verify
called directly with that derived public key. -/
theorem verify_private_derives_public (P : Ed25519Prim) (priv m s : List Nat)
    (hlen : priv.length = 64) :
    algEdDSA.Verify P (.ed25519Priv priv) m s =
      algEdDSA.Verify P (.ed25519Pub (priv.drop 32)) m s := by
  simp [algEdDSA.Verify, goPublicOf_eq_of_len64 priv hlen]

/-- Witness for C7 at a concrete 64-byte private key. -/
theorem verify_private_derives_public_witness :
    algEdDSA.Verify mockPrim (.ed25519Priv (List.range 64)) [8] [9] =
      algEdDSA.Verify mockPrim (.ed25519Pub ((List.range 64).drop 32)) [8] [9] :=
  verify_private_derives_public mockPrim (List.range 64) [8] [9] (by decide)

/-- C9: Sign is a pure function of the key and the message: two invocations
with equal inputs return identical signature bytes.  The embedding is
deterministic because ed25519.Sign consumes no randomness. -/
theorem sign_deterministic (P : Ed25519Prim) (k1 k2 : Key) (m1 m2 : List Nat)
    (hk : k1 = k2) (hm : m1 = m2) :
    algEdDSA.Sign P k1 m1 = algEdDSA.Sign P k2 m2 := by
  rw [hk, hm]

/-- Witness for C9 at a concrete key and message. -/
theorem sign_deterministic_witness :
    algEdDSA.Sign mockPrim (.ed25519Priv (List.replicate 64 1)) [9] =
      algEdDSA.Sign mockPrim (.ed25519Priv (List.replicate 64 1)) [9] :=
  sign_deterministic mockPrim (.ed25519Priv (List.replicate 64 1))
    (.ed25519Priv (List.replicate 64 1)) [9] [9] rfl rfl

/-- C4, counterexample: a PEM input whose payload is well-formed ASN.1 with
an empty OCTET STRING private-key field makes ParsePrivateKeyEdDSA panic
(the slice raw[2:] aborts), so the parser is not total. -/
theorem parse_private_panic_counterexample :
    ParsePrivateKeyEdDSA mockPrim inputEmptyOctet = ParseOut.panicked := by decide

/-- C4, amended: ParsePublicKeyEdDSA is total; ParsePrivateKeyEdDSA
returns the malformed-PEM error on input without a decodable PEM block and
the ASN.1 error on input whose payload fails to unmarshal, without
panicking in either case, but it panics whenever the payload unmarshals
with a private-key field whose length is not 34 (2 leading bytes plus a
32-byte seed). -/
theorem parse_totality_amended (P : Ed25519Prim) (input : List Nat) :
    (ParsePublicKeyEdDSA input ≠ ParseOut.panicked) ∧
    (pemDecode input = none →
      ParsePrivateKeyEdDSA P input = .err (.pemMsg privPemErrorMsg)) ∧
    (∀ (b : List Nat) (e : ASN1Error), pemDecode input = some b →
      asn1UnmarshalPriv b = .error e →
      ParsePrivateKeyEdDSA P input = .err (.asn1 e)) ∧
    (∀ (b : List Nat) (ver : Int) (oid raw : List Nat), pemDecode input = some b →
      asn1UnmarshalPriv b = .ok (ver, oid, raw) → raw.length ≠ 34 →
      ParsePrivateKeyEdDSA P input = ParseOut.panicked) := by
  refine ⟨?_, ?_, ?_, ?_⟩
  · unfold ParsePublicKeyEdDSA
    cases hp : pemDecode input with
    | none => simp
    | some block =>
      cases hu : asn1UnmarshalPub block with
      | error e => simp [hu]
      | ok v =>
        obtain ⟨a, pad, data⟩ := v
        simp [hu]
  · intro hp
    simp [ParsePrivateKeyEdDSA, hp]
  · intro b e hp hu
    simp [ParsePrivateKeyEdDSA, hp, hu]
  · intro b ver oid raw hp hu hne
    by_cases h2 : raw.length < 2
    · simp [ParsePrivateKeyEdDSA, hp, hu, h2]
    · have h3 : ¬ raw.length - 2 = 32 := by omega
      simp [ParsePrivateKeyEdDSA, hp, hu, h2, newKeyFromSeed, List.length_drop, h3]

/-- Witness for the amended C4 at concrete inputs: the empty input yields
the PEM error, the garbage DER block yields the ASN.1 error, and the
empty-octet-string input reaches the panic branch. -/
theorem parse_totality_amended_witness :
    ParsePublicKeyEdDSA [] ≠ ParseOut.panicked ∧
    ParsePrivateKeyEdDSA mockPrim [] = .err (.pemMsg privPemErrorMsg) ∧
    ParsePrivateKeyEdDSA mockPrim inputEmptyOctet = ParseOut.panicked :=
  ⟨(parse_totality_amended mockPrim []).1,
   (parse_totality_amended mockPrim []).2.1 (by decide),
   (parse_totality_amended mockPrim inputEmptyOctet).2.2.2 emptyOctetDER 0
     [1, 3, 101, 112] [] (by decide) (by decide) (by decide)⟩

/-- C5, counterexample: a PEM input that decodes and unmarshals
successfully but whose private-key field is the single byte 0xAA makes
ParsePrivateKeyEdDSA panic instead of returning a derived 64-byte key, so
the seed-extraction contract does not hold for every successfully
unmarshaled input. -/
theorem parse_private_short_field_counterexample :
    pemDecode inputOneByteOctet =
      some [48, 13, 2, 1, 0, 48, 5, 6, 3, 43, 101, 112, 4, 1, 170] ∧
    asn1UnmarshalPriv [48, 13, 2, 1, 0, 48, 5, 6, 3, 43, 101, 112, 4, 1, 170] =
      .ok (0, [1, 3, 101, 112], [170]) ∧
    ParsePrivateKeyEdDSA mockPrim inputOneByteOctet = ParseOut.panicked := by decide

/-- C5, amended: on every input that PEM-decodes and unmarshals
successfully and whose private-key field is exactly 34 bytes,
ParsePrivateKeyEdDSA skips the first 2 bytes, feeds the remaining 32 bytes
to ed25519.NewKeyFromSeed, and returns exactly the 64-byte key the
primitive derives from that seed; for any other field length it panics
(see the counterexample). -/
theorem parse_private_seed_extraction (P : Ed25519Prim) (input b : List Nat)
    (ver : Int) (oid raw : List Nat)
    (hpub : PubLen32 P)
    (hpem : pemDecode input = some b)
    (hasn : asn1UnmarshalPriv b = .ok (ver, oid, raw))
    (hlen : raw.length = 34) :
    newKeyFromSeed P (raw.drop 2) =
      some (raw.drop 2 ++ P.scalarBaseMultPub (raw.drop 2)) ∧
    ParsePrivateKeyEdDSA P input =
      .ok (raw.drop 2 ++ P.scalarBaseMultPub (raw.drop 2)) ∧
    (raw.drop 2 ++ P.scalarBaseMultPub (raw.drop 2)).length = 64 := by
  have hseed : (raw.drop 2).length = 32 := by simp [hlen]
  have h2 : ¬ raw.length < 2 := by omega
  refine ⟨?_, ?_, ?_⟩
  · simp [newKeyFromSeed, hseed]
  · simp [ParsePrivateKeyEdDSA, hpem, hasn, h2, newKeyFromSeed, hseed]
  · simp [hseed, hpub (raw.drop 2)]

/-- Witness for the amended C5: the PKCS#8 envelope around the seed
0x00..0x1F parses to exactly the key derived from that seed. -/
theorem parse_private_seed_extraction_witness :
    ParsePrivateKeyEdDSA mockPrim inputGoodSeed =
      .ok (goodRaw.drop 2 ++ mockPrim.scalarBaseMultPub (goodRaw.drop 2)) :=
  (parse_private_seed_extraction mockPrim inputGoodSeed goodSeedDER 0
    [1, 3, 101, 112] goodRaw mockPrim_pubLen32 (by decide) (by decide) (by decide)).2.1

/-- C6, counterexample: ParsePublicKeyEdDSA returns the 3-byte key
0x11 0x22 0x33 with no error, so the parsers do not maintain the
public-key length invariant. -/
theorem parse_public_wrong_length_counterexample :
    ParsePublicKeyEdDSA inputPub3 = .ok [17, 34, 51] ∧
    ([17, 34, 51] : List Nat).length ≠ 32 := by decide

/-- C6, amended: Sign rejects private keys of length other than 64 and
Verify rejects supplied public keys of length other than 32 with the
invalid-key sentinel, and ParsePrivateKeyEdDSA only ever returns 64-byte
keys; but ParsePublicKeyEdDSA performs no length validation and can return
a wrong-length public key without an error (see the counterexample), and a
wrong-length private key given to Verify is normalised by Public() rather
than rejected. -/
theorem key_length_invariant_amended (P : Ed25519Prim) (hpub : PubLen32 P) :
    (∀ (b m : List Nat), b.length ≠ 64 →
      algEdDSA.Sign P (.ed25519Priv b) m = .error .invalidKey) ∧
    (∀ (b m s : List Nat), b.length ≠ 32 →
      algEdDSA.Verify P (.ed25519Pub b) m s = .err .invalidKey) ∧
    (∀ (input k : List Nat), ParsePrivateKeyEdDSA P input = .ok k → k.length = 64) := by
  refine ⟨?_, ?_, ?_⟩
  · intro b m hb
    simp [algEdDSA.Sign, hb]
  · intro b m s hb
    simp [algEdDSA.Verify, hb]
  · intro input k h
    unfold ParsePrivateKeyEdDSA at h
    split at h
    · simp at h
    · split at h
      · simp at h
      · split at h
        · simp at h
        · split at h
          · simp at h
          · rename_i privateKey hk
            have hpub2 : ∀ s : List Nat, (P.scalarBaseMultPub s).length = 32 := hpub
            simp only [ParseOut.ok.injEq] at h
            subst h
            unfold newKeyFromSeed at hk
            split at hk
            · rename_i h3
              simp only [Option.some.injEq] at hk
              subst hk
              simp only [List.length_append]
              rw [h3, hpub2]
            · cases hk

/-- Witness for the amended C6 at concrete wrong-length keys and the
concrete good private-key input. -/
theorem key_length_invariant_amended_witness :
    algEdDSA.Sign mockPrim (.ed25519Priv (List.replicate 65 1)) [3] = .error .invalidKey ∧
    algEdDSA.Verify mockPrim (.ed25519Pub (List.replicate 33 1)) [3] [4] =
      .err .invalidKey ∧
    (goodRaw.drop 2 ++ mockPrim.scalarBaseMultPub (goodRaw.drop 2)).length = 64 :=
  ⟨(key_length_invariant_amended mockPrim mockPrim_pubLen32).1 (List.replicate 65 1) [3]
      (by decide),
   (key_length_invariant_amended mockPrim mockPrim_pubLen32).2.1 (List.replicate 33 1)
      [3] [4] (by decide),
   (key_length_invariant_amended mockPrim mockPrim_pubLen32).2.2 inputGoodSeed
      (goodRaw.drop 2 ++ mockPrim.scalarBaseMultPub (goodRaw.drop 2)) (by decide)⟩

/-- C8: when no PEM block decodes, each parser fails with its
context-naming malformed-PEM message (the messages are the exact
fmt.Errorf strings of eddsa.go, both naming EdDSA); and when the payload
fails to unmarshal, each parser returns the underlying ASN.1 error itself,
unmodified. -/
theorem parse_error_contract (P : Ed25519Prim) (input : List Nat) :
    (pemDecode input = none →
      ParsePrivateKeyEdDSA P input = .err (.pemMsg privPemErrorMsg) ∧
      ParsePublicKeyEdDSA input = .err (.pemMsg pubPemErrorMsg)) ∧
    (∀ (b : List Nat) (e : ASN1Error), pemDecode input = some b →
      asn1UnmarshalPriv b = .error e →
      ParsePrivateKeyEdDSA P input = .err (.asn1 e)) ∧
    (∀ (b : List Nat) (e : ASN1Error), pemDecode input = some b →
      asn1UnmarshalPub b = .error e →
      ParsePublicKeyEdDSA input = .err (.asn1 e)) := by
  refine ⟨?_, ?_, ?_⟩
  · intro hp
    exact ⟨by simp [ParsePrivateKeyEdDSA, hp], by simp [ParsePublicKeyEdDSA, hp]⟩
  · intro b e hp hu
    simp [ParsePrivateKeyEdDSA, hp, hu]
  · intro b e hp hu
    simp [ParsePublicKeyEdDSA, hp, hu]

/-- Witness for C8 at the empty input (no PEM block) and at a PEM block
holding a non-DER payload (ASN.1 tag mismatch propagated unmodified). -/
theorem parse_error_contract_witness :
    ParsePrivateKeyEdDSA mockPrim [] = .err (.pemMsg privPemErrorMsg) ∧
    ParsePublicKeyEdDSA [] = .err (.pemMsg pubPemErrorMsg) ∧
    ParsePrivateKeyEdDSA mockPrim inputBadDER = .err (.asn1 .tagMismatch) ∧
    ParsePublicKeyEdDSA inputBadDER = .err (.asn1 .tagMismatch) :=
  ⟨((parse_error_contract mockPrim []).1 (by decide)).1,
   ((parse_error_contract mockPrim []).1 (by decide)).2,
   (parse_error_contract mockPrim inputBadDER).2.1 [0, 0, 0] .tagMismatch
     (by decide) (by decide),
   (parse_error_contract mockPrim inputBadDER).2.2 [0, 0, 0] .tagMismatch
     (by decide) (by decide)⟩

/-- C10: ParsePublicKeyEdDSA performs no length validation: this
well-formed PEM/DER input whose BIT STRING holds 5 bytes parses with no
error to that 5-byte sequence, deferring rejection to Verify. -/
theorem parse_public_no_length_validation :
    ParsePublicKeyEdDSA inputPub5 = .ok [170, 187, 204, 221, 238] ∧
    ([170, 187, 204, 221, 238] : List Nat).length ≠ 32 := by decide

end Jwt

